import Mathlib

/-!
Verification of the review-thread reconstruction and action-dispatch workflow
of the GitHub review-comment agent.

The development shallowly embeds the Python sources:
* `src/github_utils.py` — `_shape_comment`, `build_review_comment_dict`
  (thread reconstruction), `_post_graphql` (retrying GraphQL client),
  `create_new_branch`, `add_comment_to_thread`, `push_changes_and_create_pr`;
* `src/agent.py` — `should_make_changes` (dispatcher), `make_code_changes`,
  `post_comment_reply`, and the compiled LangGraph routing;
* `src/main.py` — the `main` per-thread driver loop;
* `src/tools.py` / `src/agent.py` — the `read_file` tool.

External effects (HTTP responses, subprocess results, the coding agent, the
filesystem) are passed in explicitly as environment values, so every embedded
operation is a total computable function of its inputs and its environment.
Python falsiness of optional strings (`None` or `""`) is modelled by
`Option String` together with an explicit emptiness test.
-/

namespace GithubAgent

/-- A raw review comment as returned by the GraphQL `Q_THREAD_COMMENTS` query
(`comments.nodes` entries), before `_shape_comment` runs.  `author` holds the
`author.login` value (absent when `author` is null), `replyTo` holds the
`replyTo.id` value (absent when `replyTo` is null), mirroring the only shapes
the GitHub API produces. -/
structure RawComment where
  id : String
  databaseId : Option Int := none
  url : Option String := none
  body : Option String := none
  author : Option String := none
  createdAt : Option String := none
  replyTo : Option String := none
  path : Option String := none
  startLine : Option Int := none
  line : Option Int := none
  originalStartLine : Option Int := none
  originalLine : Option Int := none
  position : Option Int := none
  originalPosition : Option Int := none
deriving DecidableEq, Repr, Inhabited

/-- The dictionary built by `_shape_comment` in `src/github_utils.py`:
each raw comment plus the owning PR number and thread id.
`body` gets the default `""` (`c.get("body", "")`). -/
structure ShapedComment where
  id : String
  databaseId : Option Int
  url : Option String
  body : String
  author : Option String
  createdAt : Option String
  replyTo : Option String
  path : Option String
  pullRequestNumber : Nat
  threadId : String
  startLine : Option Int
  line : Option Int
  originalStartLine : Option Int
  originalLine : Option Int
  position : Option Int
  originalPosition : Option Int
deriving DecidableEq, Repr

/-- `_shape_comment(c, pr_number, thread_id)` from `src/github_utils.py`. -/
def shapeComment (c : RawComment) (pr_number : Nat) (thread_id : String) :
    ShapedComment :=
  { id := c.id
    databaseId := c.databaseId
    url := c.url
    body := c.body.getD ""
    author := c.author
    createdAt := c.createdAt
    replyTo := c.replyTo
    path := c.path
    pullRequestNumber := pr_number
    threadId := thread_id
    startLine := c.startLine
    line := c.line
    originalStartLine := c.originalStartLine
    originalLine := c.originalLine
    position := c.position
    originalPosition := c.originalPosition }

/-- Lexicographic `≤` on character lists: how Python compares strings
(code-point by code-point, a proper prefix is smaller). -/
def charListLE : List Char → List Char → Bool
  | [], _ => true
  | _ :: _, [] => false
  | a :: as, b :: bs => if a < b then true else if b < a then false else charListLE as bs

/-- Python's `s1 <= s2` on strings. -/
def strLE (a b : String) : Bool :=
  charListLE a.data b.data

/-- The sort key used by `build_review_comment_dict`:
`lambda c: c.get("createdAt") or ""` — a missing (or empty) `createdAt`
becomes the empty string.  ISO-8601 timestamps compare chronologically
as strings, exactly as Python compares them. -/
def sortKey (c : RawComment) : String :=
  c.createdAt.getD ""

/-- The comparison Python's stable `sorted(comments, key=...)` sorts by. -/
def commentLE (a b : RawComment) : Prop :=
  strLE (sortKey a) (sortKey b) = true

instance : DecidableRel commentLE := fun a b =>
  inferInstanceAs (Decidable (strLE (sortKey a) (sortKey b) = true))

theorem charListLE_total (a b : List Char) :
    charListLE a b = true ∨ charListLE b a = true := by
  induction a generalizing b with
  | nil => left; rfl
  | cons x as ih =>
    cases b with
    | nil => right; rfl
    | cons y bs =>
      rcases lt_trichotomy x y with h | h | h
      · left; simp [charListLE, h]
      · subst h
        rcases ih bs with h' | h'
        · left; simp [charListLE, h']
        · right; simp [charListLE, h']
      · right; simp [charListLE, h]

theorem charListLE_trans {a b c : List Char} (hab : charListLE a b = true)
    (hbc : charListLE b c = true) : charListLE a c = true := by
  induction a generalizing b c with
  | nil => rfl
  | cons x as ih =>
    cases b with
    | nil => simp [charListLE] at hab
    | cons y bs =>
      cases c with
      | nil => simp [charListLE] at hbc
      | cons z cs =>
        simp only [charListLE] at hab hbc ⊢
        rcases lt_trichotomy x y with hxy | hxy | hxy
        · rcases lt_trichotomy y z with hyz | hyz | hyz
          · simp [hxy.trans hyz]
          · subst hyz; simp [hxy]
          · simp [hyz, not_lt.mpr hyz.le] at hbc
        · subst hxy
          rcases lt_trichotomy x z with hyz | hyz | hyz
          · simp [hyz]
          · subst hyz
            simp only [lt_irrefl, if_false] at hab hbc ⊢
            exact ih hab hbc
          · simp [hyz, not_lt.mpr hyz.le] at hbc
        · simp [hxy, not_lt.mpr hxy.le] at hab

theorem charListLE_antisymm {a b : List Char} (hab : charListLE a b = true)
    (hba : charListLE b a = true) : a = b := by
  induction a generalizing b with
  | nil =>
    cases b with
    | nil => rfl
    | cons y bs => simp [charListLE] at hba
  | cons x as ih =>
    cases b with
    | nil => simp [charListLE] at hab
    | cons y bs =>
      simp only [charListLE] at hab hba
      rcases lt_trichotomy x y with hxy | hxy | hxy
      · simp [hxy, not_lt.mpr hxy.le] at hba
      · subst hxy
        simp only [lt_irrefl, if_false] at hab hba
        exact congrArg _ (ih hab hba)
      · simp [hxy, not_lt.mpr hxy.le] at hab

theorem strLE_antisymm {a b : String} (hab : strLE a b = true)
    (hba : strLE b a = true) : a = b := by
  cases a; cases b
  exact congrArg String.mk (charListLE_antisymm hab hba)

instance : IsTotal RawComment commentLE :=
  ⟨fun a b => charListLE_total (sortKey a).data (sortKey b).data⟩

instance : IsTrans RawComment commentLE :=
  ⟨fun _ _ _ h h' => charListLE_trans h h'⟩

/-- Python's `sorted(comments, key=lambda c: c.get("createdAt") or "")`:
a stable sort by `sortKey`; `List.insertionSort` with a total preorder
is stable, so it is an exact model of CPython's stable `sorted`. -/
def sortComments (comments : List RawComment) : List RawComment :=
  List.insertionSort commentLE comments

/-- `not c.get("replyTo")`: the root test in `build_review_comment_dict`
(the raw `replyTo` GraphQL object is null exactly when no parent exists). -/
def isRootComment (c : RawComment) : Bool :=
  c.replyTo.isNone

/-- The body of the per-thread loop of `build_review_comment_dict`
(`src/github_utils.py` lines 311–331): given one fetched thread's comments,
sort them, select the root (`roots[0] if roots else comments_sorted[0]`) and
return the mapping entry `root_id -> [shaped root] + shaped non-root rest`.
Returns `none` when the fetched comment list is empty
(`if not comments: continue`). -/
def buildThread (pr_number : Nat) (thread_id : String)
    (comments : List RawComment) :
    Option (String × List ShapedComment) :=
  if comments = [] then none
  else
    let comments_sorted := sortComments comments
    let roots := comments_sorted.filter fun c => isRootComment c
    let root := roots.headD (comments_sorted.headD default)
    let root_id := root.id
    some (root_id,
      shapeComment root pr_number thread_id ::
        (comments_sorted.filter fun c => c.id ≠ root_id).map
          fun c => shapeComment c pr_number thread_id)

/-- `build_review_comment_dict` with the transport layer factored out: the
pagination loops of `fetch_open_pr_numbers` / `fetch_review_thread_ids` /
`fetch_thread_comments` yield, per review thread, a triple
`(pr_number, thread_id, comments)`; the function folds every non-empty group
into one mapping entry keyed by the selected root's id. -/
def build_review_comment_dict
    (groups : List (Nat × String × List RawComment)) :
    List (String × List ShapedComment) :=
  groups.filterMap fun g => buildThread g.1 g.2.1 g.2.2

/-- The first comment of a list in input order whose `sortKey` is minimal:
what "earliest-timestamped, ties broken by input order" denotes.  Written
from the claim's words, to be compared with the code's selection. -/
def firstEarliest : List RawComment → Option RawComment
  | [] => none
  | c :: t =>
    match firstEarliest t with
    | none => some c
    | some d => if strLE (sortKey c) (sortKey d) then some c else some d

theorem charListLE_refl (a : List Char) : charListLE a a = true := by
  induction a with
  | nil => rfl
  | cons x as ih => simp [charListLE, ih]

theorem strLE_refl (a : String) : strLE a a = true :=
  charListLE_refl a.data

theorem strLE_trans {a b c : String} (hab : strLE a b = true)
    (hbc : strLE b c = true) : strLE a c = true :=
  charListLE_trans hab hbc

theorem strLE_total (a b : String) : strLE a b = true ∨ strLE b a = true :=
  charListLE_total a.data b.data

/-- The head of a filtered list is the first element satisfying the filter. -/
theorem head?_filter {α : Type} (p : α → Bool) (l : List α) :
    (l.filter p).head? = l.find? p := by
  induction l with
  | nil => rfl
  | cons a t ih =>
    by_cases h : p a <;> simp [List.filter_cons, List.find?_cons, h, ih]

/-- The head of `orderedInsert` is the smaller of the inserted element and
the old head (the inserted element on ties). -/
theorem head?_orderedInsert (c : RawComment) (s : List RawComment) :
    (List.orderedInsert commentLE c s).head? =
      some (match s.head? with
            | none => c
            | some d => if strLE (sortKey c) (sortKey d) then c else d) := by
  cases s with
  | nil => rfl
  | cons d s' =>
    simp only [List.orderedInsert, List.head?_cons]
    by_cases h : strLE (sortKey c) (sortKey d) = true
    · have hc : commentLE c d := h
      simp only [if_pos hc, if_pos h, List.head?_cons]
    · have hc : ¬ commentLE c d := h
      simp only [if_neg hc, if_neg h, List.head?_cons]

/-- The head of the stable sort is the first input element of minimal key:
Python's `comments_sorted[0]` is the earliest-timestamped comment, ties
broken by input order. -/
theorem head?_sortComments (l : List RawComment) :
    (sortComments l).head? = firstEarliest l := by
  induction l with
  | nil => rfl
  | cons c t ih =>
    show (List.orderedInsert commentLE c (sortComments t)).head? = _
    rw [head?_orderedInsert, ih]
    cases h : firstEarliest t with
    | none => simp [firstEarliest, h]
    | some d =>
      simp only [firstEarliest, h]
      by_cases hc : strLE (sortKey c) (sortKey d) = true <;> simp [hc]

theorem firstEarliest_eq_none_iff (l : List RawComment) :
    firstEarliest l = none ↔ l = [] := by
  cases l with
  | nil => simp [firstEarliest]
  | cons c t =>
    simp only [firstEarliest]
    cases firstEarliest t with
    | none => simp
    | some d => by_cases h : strLE (sortKey c) (sortKey d) <;> simp [h]

/-- Characterisation of `firstEarliest`: it is a decomposition point of the
input list such that every element strictly before it has a strictly later
timestamp, and no element anywhere has an earlier one. -/
theorem firstEarliest_spec :
    ∀ (l : List RawComment) (e : RawComment), firstEarliest l = some e →
    ∃ pre post, l = pre ++ e :: post ∧
      (∀ d ∈ pre, strLE (sortKey d) (sortKey e) = false) ∧
      (∀ d ∈ l, strLE (sortKey e) (sortKey d) = true) := by
  intro l
  induction l with
  | nil => intro e h; simp [firstEarliest] at h
  | cons c t ih =>
    intro e h
    cases ht : firstEarliest t with
    | none =>
      simp only [firstEarliest, ht] at h
      cases h
      have : t = [] := (firstEarliest_eq_none_iff t).mp ht
      subst this
      exact ⟨[], [], rfl, by simp, by simp [strLE_refl]⟩
    | some d =>
      simp only [firstEarliest, ht] at h
      obtain ⟨pre, post, hdec, hpre, hmin⟩ := ih d ht
      by_cases hc : strLE (sortKey c) (sortKey d) = true
      · rw [if_pos hc] at h
        cases h
        refine ⟨[], t, rfl, by simp, ?_⟩
        intro x hx
        rcases List.mem_cons.mp hx with hx | hx
        · subst hx; exact strLE_refl _
        · exact strLE_trans hc (hmin x hx)
      · rw [if_neg hc] at h
        cases h
        refine ⟨c :: pre, post, by rw [hdec]; rfl, ?_, ?_⟩
        · intro x hx
          rcases List.mem_cons.mp hx with hx | hx
          · subst hx
            exact Bool.eq_false_iff.mpr hc
          · exact hpre x hx
        · intro x hx
          rcases List.mem_cons.mp hx with hx | hx
          · subst hx
            rcases strLE_total (sortKey e) (sortKey x) with h' | h'
            · exact h'
            · exact absurd h' hc
          · exact hmin x hx

theorem sortComments_ne_nil {l : List RawComment} (h : l ≠ []) :
    sortComments l ≠ [] := by
  intro hs
  have hp : (sortComments l).Perm l := List.perm_insertionSort commentLE l
  rw [hs] at hp
  exact h hp.symm.eq_nil

theorem sortComments_perm (l : List RawComment) : (sortComments l).Perm l :=
  List.perm_insertionSort commentLE l

/-- The root `build_review_comment_dict` selects:
`roots[0] if roots else comments_sorted[0]`. -/
def selectedRoot (comments : List RawComment) : RawComment :=
  ((sortComments comments).filter fun c => isRootComment c).headD
    ((sortComments comments).headD default)

/-- Unfolding of `buildThread` on a non-empty comment group. -/
theorem buildThread_eq (pr : Nat) (tid : String) {comments : List RawComment}
    (h : comments ≠ []) :
    buildThread pr tid comments =
      some ((selectedRoot comments).id,
        shapeComment (selectedRoot comments) pr tid ::
          ((sortComments comments).filter
              fun c => c.id ≠ (selectedRoot comments).id).map
            fun c => shapeComment c pr tid) := by
  rw [buildThread, if_neg h]
  rfl

end GithubAgent

/-- C1: for every non-empty fetched comment group, `build_review_comment_dict`
keys the mapping entry by the id of a root comment that is either the first
comment in ascending-`createdAt` sorted order with empty/absent `replyTo`,
or — when no comment of the group has an empty `replyTo` — the
earliest-timestamped comment of the group, ties broken by input order; the
selected root is also the first element of the stored thread list. -/
theorem GithubAgent.build_review_comment_dict_root_selection
    (pr : Nat) (tid : String) (comments : List GithubAgent.RawComment)
    (h : comments ≠ []) :
    ∃ root rest,
      GithubAgent.buildThread pr tid comments =
        some (root.id, GithubAgent.shapeComment root pr tid :: rest) ∧
      (((GithubAgent.sortComments comments).find?
          (fun c => GithubAgent.isRootComment c) = some root) ∨
       ((GithubAgent.sortComments comments).find?
          (fun c => GithubAgent.isRootComment c) = none ∧
        GithubAgent.firstEarliest comments = some root ∧
        ∃ pre post, comments = pre ++ root :: post ∧
          (∀ d ∈ pre, GithubAgent.strLE (GithubAgent.sortKey d)
            (GithubAgent.sortKey root) = false) ∧
          (∀ d ∈ comments, GithubAgent.strLE (GithubAgent.sortKey root)
            (GithubAgent.sortKey d) = true))) := by
  open GithubAgent in
  have hfilter := head?_filter (fun c => isRootComment c) (sortComments comments)
  cases hf : (sortComments comments).find? (fun c => isRootComment c) with
  | some r =>
    rw [hf] at hfilter
    have hroot : selectedRoot comments = r := by
      rw [selectedRoot, List.headD_eq_head?_getD, hfilter]
      rfl
    exact ⟨r, _, by rw [buildThread_eq pr tid h, hroot], Or.inl rfl⟩
  | none =>
    rw [hf] at hfilter
    have hroots : ((sortComments comments).filter
        fun c => isRootComment c) = [] := by
      rwa [List.head?_eq_none_iff] at hfilter
    have hfe : firstEarliest comments ≠ none := by
      rw [Ne, firstEarliest_eq_none_iff]; exact h
    cases he : firstEarliest comments with
    | none => exact absurd he hfe
    | some e =>
      have hhead : (sortComments comments).head? = some e :=
        (head?_sortComments comments).trans he
      obtain ⟨pre, post, hdec, hpre, hmin⟩ := firstEarliest_spec comments e he
      have hroot : selectedRoot comments = e := by
        rw [selectedRoot, hroots, List.headD_nil, List.headD_eq_head?_getD,
          hhead]
        rfl
      exact ⟨e, _, by rw [buildThread_eq pr tid h, hroot],
        Or.inr ⟨rfl, rfl, pre, post, hdec, hpre, hmin⟩⟩

namespace GithubAgent

/-- Two sorted lists that are permutations of each other and whose sort keys
are pairwise distinct are equal. -/
theorem eq_of_perm_sorted_nodup_keys :
    ∀ {l1 l2 : List RawComment}, l1.Perm l2 →
      List.Sorted commentLE l1 → List.Sorted commentLE l2 →
      (l1.map sortKey).Nodup → l1 = l2 := by
  intro l1
  induction l1 with
  | nil =>
    intro l2 hp _ _ _
    exact (hp.symm.eq_nil).symm
  | cons a t1 ih =>
    intro l2 hp hs1 hs2 hnd
    cases l2 with
    | nil => exact absurd hp.eq_nil (List.cons_ne_nil a t1)
    | cons b t2 =>
      by_cases hab : a = b
      · subst hab
        rw [ih hp.cons_inv hs1.of_cons hs2.of_cons (List.nodup_cons.mp hnd).2]
      · exfalso
        have hbmem : b ∈ a :: t1 := hp.mem_iff.mpr (List.mem_cons_self b t2)
        have hamem : a ∈ b :: t2 := hp.mem_iff.mp (List.mem_cons_self a t1)
        have hb1 : b ∈ t1 := by
          rcases List.mem_cons.mp hbmem with hx | hx
          · exact absurd hx.symm hab
          · exact hx
        have ha2 : a ∈ t2 := by
          rcases List.mem_cons.mp hamem with hx | hx
          · exact absurd hx hab
          · exact hx
        have hkey : sortKey a = sortKey b :=
          strLE_antisymm (List.rel_of_sorted_cons hs1 b hb1)
            (List.rel_of_sorted_cons hs2 a ha2)
        have : sortKey a ∉ t1.map sortKey := (List.nodup_cons.mp hnd).1
        exact this (hkey ▸ List.mem_map_of_mem sortKey hb1)

/-- The stable sort is a function of the multiset of comments whenever the
sort keys are pairwise distinct. -/
theorem sortComments_eq_of_perm {l1 l2 : List RawComment} (hp : l1.Perm l2)
    (hnd : (l1.map sortKey).Nodup) :
    sortComments l1 = sortComments l2 :=
  eq_of_perm_sorted_nodup_keys
    ((sortComments_perm l1).trans (hp.trans (sortComments_perm l2).symm))
    (List.sorted_insertionSort commentLE l1)
    (List.sorted_insertionSort commentLE l2)
    (((sortComments_perm l1).map sortKey).nodup_iff.mpr hnd)

/-- Per-group reconstruction only depends on the multiset of comments,
provided the creation timestamps within the group are pairwise distinct. -/
theorem buildThread_perm_invariant (pr : Nat) (tid : String)
    {l1 l2 : List RawComment} (hp : l1.Perm l2)
    (hnd : (l1.map sortKey).Nodup) :
    buildThread pr tid l1 = buildThread pr tid l2 := by
  by_cases h : l1 = []
  · subst h
    rw [hp.symm.eq_nil]
  · have h2 : l2 ≠ [] := fun hh => h (by rw [hh] at hp; exact hp.eq_nil)
    have hsort : sortComments l1 = sortComments l2 :=
      sortComments_eq_of_perm hp hnd
    rw [buildThread_eq pr tid h, buildThread_eq pr tid h2]
    simp only [selectedRoot, hsort]

end GithubAgent

/-- C3 counterexample: two comments in one group with equal `createdAt` make
the reconstruction depend on input order — presenting the same comment set in
the two orders yields different mappings, refuting insensitivity to input
order as claimed. -/
theorem GithubAgent.reconstruct_order_insensitive_counterexample :
    ([({ id := "a", createdAt := some "t" } : GithubAgent.RawComment),
      ({ id := "b", createdAt := some "t" } : GithubAgent.RawComment)]).Perm
      [({ id := "b", createdAt := some "t" } : GithubAgent.RawComment),
       ({ id := "a", createdAt := some "t" } : GithubAgent.RawComment)] ∧
    GithubAgent.build_review_comment_dict
        [(1, "T", [({ id := "a", createdAt := some "t" } :
            GithubAgent.RawComment),
          ({ id := "b", createdAt := some "t" } : GithubAgent.RawComment)])] ≠
      GithubAgent.build_review_comment_dict
        [(1, "T", [({ id := "b", createdAt := some "t" } :
            GithubAgent.RawComment),
          ({ id := "a", createdAt := some "t" } : GithubAgent.RawComment)])] :=
  ⟨by decide, by decide⟩

/-- C3 (amended): thread reconstruction is insensitive to input order
provided no two comments of a group share a creation timestamp: presenting
each group's comment set in any two orders yields an identical mapping from
root id to ordered thread list. -/
theorem GithubAgent.reconstruct_order_insensitive
    (gs1 gs2 : List (Nat × String × List GithubAgent.RawComment))
    (h : List.Forall₂ (fun g1 g2 => g1.1 = g2.1 ∧ g1.2.1 = g2.2.1 ∧
          g1.2.2.Perm g2.2.2 ∧
          (g1.2.2.map GithubAgent.sortKey).Nodup) gs1 gs2) :
    GithubAgent.build_review_comment_dict gs1 =
      GithubAgent.build_review_comment_dict gs2 := by
  open GithubAgent in
  induction h with
  | nil => rfl
  | cons hg _ ih =>
    obtain ⟨h1, h2, hperm, hnd⟩ := hg
    simp only [build_review_comment_dict, List.filterMap_cons] at ih ⊢
    rw [← h1, ← h2, buildThread_perm_invariant _ _ hperm hnd] at *
    cases hb : GithubAgent.buildThread _ _ _ <;> rw [ih]

/-- Witness for the amended C3 at concrete permuted groups with distinct
timestamps. -/
theorem GithubAgent.reconstruct_order_insensitive_witness :
    List.Forall₂ (fun g1 g2 => g1.1 = g2.1 ∧ g1.2.1 = g2.2.1 ∧
        g1.2.2.Perm g2.2.2 ∧ (g1.2.2.map GithubAgent.sortKey).Nodup)
      [(1, "T", [({ id := "a", createdAt := some "1" } :
          GithubAgent.RawComment),
        ({ id := "b", createdAt := some "2" } : GithubAgent.RawComment)])]
      [(1, "T", [({ id := "b", createdAt := some "2" } :
          GithubAgent.RawComment),
        ({ id := "a", createdAt := some "1" } : GithubAgent.RawComment)])] ∧
    GithubAgent.build_review_comment_dict
        [(1, "T", [({ id := "a", createdAt := some "1" } :
            GithubAgent.RawComment),
          ({ id := "b", createdAt := some "2" } : GithubAgent.RawComment)])] =
      GithubAgent.build_review_comment_dict
        [(1, "T", [({ id := "b", createdAt := some "2" } :
            GithubAgent.RawComment),
          ({ id := "a", createdAt := some "1" } : GithubAgent.RawComment)])] :=
  ⟨List.Forall₂.cons ⟨rfl, rfl, by decide, by decide⟩ List.Forall₂.nil,
   GithubAgent.reconstruct_order_insensitive _ _
     (List.Forall₂.cons ⟨rfl, rfl, by decide, by decide⟩ List.Forall₂.nil)⟩

/-- C2: every mapping entry `build_review_comment_dict` produces is a
non-empty thread list headed by the selected root, every element carries the
group's thread id (and PR number), the non-root part is sorted by ascending
creation time, and — for groups whose comment ids are pairwise distinct, as
GraphQL node ids are — every non-root comment of the group appears exactly
once after the root.  Empty groups produce no entry. -/
theorem GithubAgent.build_review_comment_dict_thread_shape
    (pr : Nat) (tid : String) (comments : List GithubAgent.RawComment) :
    GithubAgent.buildThread pr tid [] = none ∧
    ∀ key thread, GithubAgent.buildThread pr tid comments = some (key, thread) →
      thread ≠ [] ∧
      (∃ root, thread.head? = some (GithubAgent.shapeComment root pr tid) ∧
        key = root.id) ∧
      (∀ s ∈ thread, s.threadId = tid ∧ s.pullRequestNumber = pr) ∧
      thread.tail.Pairwise
        (fun a b => GithubAgent.strLE (a.createdAt.getD "")
          (b.createdAt.getD "") = true) ∧
      ((comments.map fun c => c.id).Nodup →
        ∀ c ∈ comments, c.id ≠ key →
          thread.tail.count (GithubAgent.shapeComment c pr tid) = 1) := by
  open GithubAgent in
  refine ⟨by rw [buildThread]; rfl, ?_⟩
  intro key thread hsome
  by_cases h : comments = []
  · rw [h, buildThread] at hsome
    simp at hsome
  · rw [buildThread_eq pr tid h] at hsome
    obtain ⟨hkey, hthread⟩ : key = (selectedRoot comments).id ∧
        thread = shapeComment (selectedRoot comments) pr tid ::
          ((sortComments comments).filter
              fun c => c.id ≠ (selectedRoot comments).id).map
            fun c => shapeComment c pr tid := by
      cases hsome
      exact ⟨rfl, rfl⟩
    subst hkey hthread
    refine ⟨List.cons_ne_nil _ _, ⟨selectedRoot comments, rfl, rfl⟩, ?_, ?_, ?_⟩
    · intro s hs
      rcases List.mem_cons.mp hs with hs | hs
      · subst hs; exact ⟨rfl, rfl⟩
      · obtain ⟨c, _, rfl⟩ := List.mem_map.mp hs
        exact ⟨rfl, rfl⟩
    · show (((sortComments comments).filter
          fun c => c.id ≠ (selectedRoot comments).id).map
            fun c => shapeComment c pr tid).Pairwise _
      rw [List.pairwise_map]
      have hsorted : List.Sorted commentLE (sortComments comments) :=
        List.sorted_insertionSort commentLE comments
      exact (hsorted.filter _).imp fun hab => hab
    · intro hnd c hc hne
      show (((sortComments comments).filter
          fun d => d.id ≠ (selectedRoot comments).id).map
            fun d => shapeComment d pr tid).count (shapeComment c pr tid) = 1
      rw [List.count_eq_countP, List.countP_map, List.countP_filter,
        ((sortComments_perm comments).countP_eq _)]
      have hcongr : (comments.countP fun d =>
          (shapeComment d pr tid == shapeComment c pr tid) &&
            decide (d.id ≠ (selectedRoot comments).id)) =
          comments.countP fun d => d == c := by
        apply List.countP_congr
        intro x hx
        simp only [Bool.and_eq_true, beq_iff_eq, decide_eq_true_eq]
        constructor
        · rintro ⟨hshape, _⟩
          have hid : x.id = c.id := congrArg ShapedComment.id hshape
          exact List.inj_on_of_nodup_map hnd hx hc hid
        · rintro rfl
          exact ⟨rfl, hne⟩
      simp only [Function.comp]
      rw [hcongr, ← List.count_eq_countP]
      exact List.count_eq_one_of_mem (List.Nodup.of_map _ hnd) hc

/-- Witness for C2 at a concrete two-element group. -/
theorem GithubAgent.build_review_comment_dict_thread_shape_witness :
    GithubAgent.buildThread 2 "T" [] = none ∧
    (GithubAgent.buildThread 2 "T"
        [({ id := "r", createdAt := some "1" } : GithubAgent.RawComment),
         ({ id := "s", createdAt := some "2", replyTo := some "r" } :
            GithubAgent.RawComment)] =
      some ("r",
        [GithubAgent.shapeComment { id := "r", createdAt := some "1" } 2 "T",
         GithubAgent.shapeComment
           { id := "s", createdAt := some "2", replyTo := some "r" } 2 "T"])) ∧
    ([({ id := "r", createdAt := some "1" } : GithubAgent.RawComment),
      ({ id := "s", createdAt := some "2", replyTo := some "r" } :
         GithubAgent.RawComment)].map fun c => c.id).Nodup ∧
    ([GithubAgent.shapeComment
        { id := "s", createdAt := some "2", replyTo := some "r" } 2 "T"].count
      (GithubAgent.shapeComment
        { id := "s", createdAt := some "2", replyTo := some "r" } 2 "T") = 1) :=
  ⟨(GithubAgent.build_review_comment_dict_thread_shape 2 "T" []).1,
   by decide,
   by decide,
   by
    have h := ((GithubAgent.build_review_comment_dict_thread_shape 2 "T"
        [({ id := "r", createdAt := some "1" } : GithubAgent.RawComment),
         ({ id := "s", createdAt := some "2", replyTo := some "r" } :
            GithubAgent.RawComment)]).2 "r"
        [GithubAgent.shapeComment { id := "r", createdAt := some "1" } 2 "T",
         GithubAgent.shapeComment
           { id := "s", createdAt := some "2", replyTo := some "r" } 2 "T"]
        (by decide)).2.2.2.2 (by decide)
        { id := "s", createdAt := some "2", replyTo := some "r" }
        (by decide) (by decide)
    exact h⟩

namespace GithubAgent

/-- The structured decision, `RepoAnalysis` in `src/response_models.py`.
`action_type` is kept as a string because `should_make_changes` branches on
string equality and routes any other value to `END`. -/
structure RepoAnalysis where
  action_type : String
  comment_reply : String
  fix_prompt : String
  reasoning : String
deriving DecidableEq, Repr

/-- The fields of the LangGraph `GithubAgentState` read by the dispatcher and
the two action nodes.  `repo_analysis = none` models an unparseable decision:
`hasattr(state['repo_analysis'], 'action_type')` is false. -/
structure AgentState where
  repo : String
  repo_analysis : Option RepoAnalysis
  pr_number : Nat
  comment_node_id : String
  comment_id : String
deriving DecidableEq, Repr

/-- The three values `should_make_changes` can route to. -/
inductive Route
  | makeChanges
  | postReply
  | endNode
deriving DecidableEq, Repr

/-- `should_make_changes` from `src/agent.py`: the conditional-edge function
of the compiled graph. -/
def should_make_changes (st : AgentState) : Route :=
  match st.repo_analysis with
  | some analysis =>
    if analysis.action_type = "code_change" then Route.makeChanges
    else if analysis.action_type = "reply" then Route.postReply
    else Route.endNode
  | none => Route.endNode

/-- One externally visible invocation made by the action nodes. -/
inductive AgentCall
  | codingAgent (fix_prompt reasoning comment_reply : String)
  | createBranch (repo : String) (pr_number : Nat) (comment_node_id : String)
  | commitChanges (repo : String) (message : String)
  | pushAndCreatePr (repo : String) (base_pr_number : Nat)
      (new_branch_name pr_title pr_body : String)
  | addCommentToThread (thread_id comment_id comment_body : String)
deriving DecidableEq, Repr

/-- Calls that are part of the branch/commit/push/PR-creation sequence. -/
def isGitCall : AgentCall → Bool
  | AgentCall.createBranch _ _ _ => true
  | AgentCall.commitChanges _ _ => true
  | AgentCall.pushAndCreatePr _ _ _ _ _ => true
  | _ => false

/-- The reply action (`add_comment_to_thread`). -/
def isReplyCall : AgentCall → Bool
  | AgentCall.addCommentToThread _ _ _ => true
  | _ => false

/-- The code-change action (the `coding_agent` invocation). -/
def isCodeChangeCall : AgentCall → Bool
  | AgentCall.codingAgent _ _ _ => true
  | _ => false

/-- `make_code_changes` from `src/agent.py`: runs the coding agent on the
decision's `fix_prompt`/`reasoning`/`comment_reply`; on a normal result it
creates the fix branch, commits with the returned message and pushes/creates
the follow-up PR; if the coding agent raises, the exception propagates (the
boolean component) before any git call is made.  `editor` is the opaque
Code-Change Executor outcome: the final commit-message string, or an error. -/
def make_code_changes (st : AgentState) (a : RepoAnalysis)
    (editor : Except String String) : List AgentCall × Bool :=
  match editor with
  | Except.error _ =>
    ([AgentCall.codingAgent a.fix_prompt a.reasoning a.comment_reply], true)
  | Except.ok msg =>
    ([AgentCall.codingAgent a.fix_prompt a.reasoning a.comment_reply,
      AgentCall.createBranch st.repo st.pr_number st.comment_node_id,
      AgentCall.commitChanges st.repo msg,
      AgentCall.pushAndCreatePr st.repo st.pr_number
        ("pr-" ++ toString st.pr_number ++ "-response-" ++ st.comment_node_id)
        "Agent fixes for PR" "Agent fixes for PR"], false)

/-- `post_comment_reply` from `src/agent.py`: one reply mutation carrying the
decision's `comment_reply`.  Reading `comment_reply` off a missing analysis
would raise, hence the boolean in the `none` case (unreachable through the
graph's routing). -/
def post_comment_reply (st : AgentState) : List AgentCall × Bool :=
  match st.repo_analysis with
  | some a =>
    ([AgentCall.addCommentToThread st.comment_node_id st.comment_id
        a.comment_reply], false)
  | none => ([], true)

/-- One `graph.invoke`: the compiled LangGraph runs `analyze_comments`, then
the conditional edge `should_make_changes`, then at most one of the two
action nodes, then `END`.  Returns the list of external invocations and
whether an exception escaped. -/
def run_graph (st : AgentState) (editor : Except String String) :
    List AgentCall × Bool :=
  match should_make_changes st with
  | Route.makeChanges =>
    match st.repo_analysis with
    | some a => make_code_changes st a editor
    | none => ([], true)
  | Route.postReply => post_comment_reply st
  | Route.endNode => ([], false)

end GithubAgent

/-- C4: the dispatcher routes `no_action` (or an unparseable decision) to no
action at all; `reply` to exactly one reply invocation carrying
`comment_reply`; `code_change` to exactly one code-change invocation followed
by at most one reply invocation, and then only with a non-empty
`comment_reply` (in fact the compiled graph goes straight to `END` after
`make_changes`, so that reply count is zero). -/
theorem GithubAgent.dispatcher_routing (st : GithubAgent.AgentState)
    (editor : Except String String) :
    ((st.repo_analysis = none ∨ ∃ a, st.repo_analysis = some a ∧
        a.action_type ≠ "code_change" ∧ a.action_type ≠ "reply") →
      ((GithubAgent.run_graph st editor).1.countP
          GithubAgent.isReplyCall = 0 ∧
        (GithubAgent.run_graph st editor).1.countP
          GithubAgent.isCodeChangeCall = 0)) ∧
    (∀ a, st.repo_analysis = some a → a.action_type = "reply" →
      ((GithubAgent.run_graph st editor).1 =
          [GithubAgent.AgentCall.addCommentToThread st.comment_node_id
            st.comment_id a.comment_reply] ∧
        (GithubAgent.run_graph st editor).1.countP
          GithubAgent.isReplyCall = 1 ∧
        (GithubAgent.run_graph st editor).1.countP
          GithubAgent.isCodeChangeCall = 0)) ∧
    (∀ a, st.repo_analysis = some a → a.action_type = "code_change" →
      ((GithubAgent.run_graph st editor).1.countP
          GithubAgent.isCodeChangeCall = 1 ∧
        (GithubAgent.run_graph st editor).1.countP
          GithubAgent.isReplyCall ≤ 1 ∧
        ((GithubAgent.run_graph st editor).1.countP
            GithubAgent.isReplyCall = 1 → a.comment_reply ≠ ""))) := by
  open GithubAgent in
  refine ⟨?_, ?_, ?_⟩
  · rintro (hn | ⟨a, ha, hcc, hr⟩)
    · simp [run_graph, should_make_changes, hn]
    · simp [run_graph, should_make_changes, ha, hcc, hr, post_comment_reply]
  · intro a ha hr
    have hcc : a.action_type ≠ "code_change" := by
      rw [hr]; decide
    simp [run_graph, should_make_changes, ha, hr, hcc, post_comment_reply,
      isReplyCall, isCodeChangeCall]
  · intro a ha hcc
    cases editor with
    | error e =>
      simp [run_graph, should_make_changes, ha, hcc, make_code_changes,
        isReplyCall, isCodeChangeCall]
    | ok msg =>
      simp [run_graph, should_make_changes, ha, hcc, make_code_changes,
        isReplyCall, isCodeChangeCall]

/-- Witness for C4 at a concrete `reply` decision. -/
theorem GithubAgent.dispatcher_routing_witness :
    (({ repo := "r", repo_analysis := some
          { action_type := "reply", comment_reply := "thanks",
            fix_prompt := "", reasoning := "" },
        pr_number := 5, comment_node_id := "T", comment_id := "c" } :
        GithubAgent.AgentState).repo_analysis =
      some { action_type := "reply", comment_reply := "thanks",
             fix_prompt := "", reasoning := "" }) ∧
    ("reply" : String) = "reply" ∧
    ((GithubAgent.run_graph
        { repo := "r", repo_analysis := some
            { action_type := "reply", comment_reply := "thanks",
              fix_prompt := "", reasoning := "" },
          pr_number := 5, comment_node_id := "T", comment_id := "c" }
        (Except.ok "m")).1 =
        [GithubAgent.AgentCall.addCommentToThread "T" "c" "thanks"] ∧
      (GithubAgent.run_graph
        { repo := "r", repo_analysis := some
            { action_type := "reply", comment_reply := "thanks",
              fix_prompt := "", reasoning := "" },
          pr_number := 5, comment_node_id := "T", comment_id := "c" }
        (Except.ok "m")).1.countP GithubAgent.isReplyCall = 1 ∧
      (GithubAgent.run_graph
        { repo := "r", repo_analysis := some
            { action_type := "reply", comment_reply := "thanks",
              fix_prompt := "", reasoning := "" },
          pr_number := 5, comment_node_id := "T", comment_id := "c" }
        (Except.ok "m")).1.countP GithubAgent.isCodeChangeCall = 0) :=
  ⟨rfl, rfl,
   (GithubAgent.dispatcher_routing
      { repo := "r", repo_analysis := some
          { action_type := "reply", comment_reply := "thanks",
            fix_prompt := "", reasoning := "" },
        pr_number := 5, comment_node_id := "T", comment_id := "c" }
      (Except.ok "m")).2.1
     { action_type := "reply", comment_reply := "thanks",
       fix_prompt := "", reasoning := "" } rfl rfl⟩

namespace GithubAgent

/-- One reconstructed thread as the `main` loop sees it: the agent-state it
assembles for `graph.invoke` plus the Code-Change Executor outcome for this
thread. -/
structure ThreadRun where
  state : AgentState
  editor : Except String String
deriving Repr

/-- What the `main` loop records for one thread. -/
inductive RunEvent
  | processed (t : ThreadRun) (calls : List AgentCall)
  | errorCaught (t : ThreadRun) (calls : List AgentCall)
deriving Repr

/-- The thread a run event belongs to. -/
def eventThread : RunEvent → ThreadRun
  | RunEvent.processed t _ => t
  | RunEvent.errorCaught t _ => t

/-- The per-thread loop of `main` in `src/main.py` (lines 17–84): each
iteration recreates the workspace (clear, clone, checkout, diff — modelled
as part of assembling the `ThreadRun`, they make no git-mutation calls) and
invokes the graph inside `try/except`.  An exception from `graph.invoke` is
caught, printed and the loop `continue`s with the next thread; a normal
return hits the trailing `break` ("for now only process one comment
thread"). -/
def mainLoop : List ThreadRun → List RunEvent
  | [] => []
  | t :: rest =>
    let r := run_graph t.state t.editor
    if r.2 then RunEvent.errorCaught t r.1 :: mainLoop rest
    else [RunEvent.processed t r.1]

end GithubAgent

/-- C5: when the Code-Change Executor raises while a thread is processed, the
driver records only the failed coding-agent attempt for that thread — no
branch creation, commit, push or PR creation — and the loop continues with
the remaining threads exactly as `mainLoop rest`; in particular the next
thread still produces an event. -/
theorem GithubAgent.executor_failure_aborts_git_sequence
    (t : GithubAgent.ThreadRun) (rest : List GithubAgent.ThreadRun)
    (a : GithubAgent.RepoAnalysis) (e : String)
    (hdec : t.state.repo_analysis = some a)
    (hact : a.action_type = "code_change")
    (herr : t.editor = Except.error e) :
    GithubAgent.mainLoop (t :: rest) =
      GithubAgent.RunEvent.errorCaught t
        [GithubAgent.AgentCall.codingAgent a.fix_prompt a.reasoning
          a.comment_reply] :: GithubAgent.mainLoop rest ∧
    (∀ c ∈ [GithubAgent.AgentCall.codingAgent a.fix_prompt a.reasoning
        a.comment_reply], GithubAgent.isGitCall c = false) ∧
    (∀ t2 rest2, rest = t2 :: rest2 →
      ∃ ev, (GithubAgent.mainLoop (t :: rest))[1]? = some ev ∧
        GithubAgent.eventThread ev = t2) := by
  open GithubAgent in
  have hrun : run_graph t.state t.editor =
      ([AgentCall.codingAgent a.fix_prompt a.reasoning a.comment_reply],
        true) := by
    simp [run_graph, should_make_changes, hdec, hact, herr,
      make_code_changes]
  have hmain : mainLoop (t :: rest) =
      RunEvent.errorCaught t
        [AgentCall.codingAgent a.fix_prompt a.reasoning a.comment_reply] ::
        mainLoop rest := by
    simp [mainLoop, hrun]
  refine ⟨hmain, by simp [isGitCall], ?_⟩
  intro t2 rest2 hrest
  subst hrest
  rw [hmain]
  cases hr2 : (run_graph t2.state t2.editor).2 with
  | true =>
    refine ⟨RunEvent.errorCaught t2 (run_graph t2.state t2.editor).1, ?_, rfl⟩
    simp [mainLoop, hr2]
  | false =>
    refine ⟨RunEvent.processed t2 (run_graph t2.state t2.editor).1, ?_, rfl⟩
    simp [mainLoop, hr2]

/-- A concrete `code_change` decision for the C5 witness. -/
def GithubAgent.c5Analysis : GithubAgent.RepoAnalysis :=
  { action_type := "code_change", comment_reply := "",
    fix_prompt := "fix", reasoning := "why" }

/-- A concrete thread whose executor raises, for the C5 witness. -/
def GithubAgent.c5Thread1 : GithubAgent.ThreadRun :=
  { state := { repo := "r", repo_analysis := some GithubAgent.c5Analysis,
               pr_number := 3, comment_node_id := "T", comment_id := "c" },
    editor := Except.error "boom" }

/-- A concrete follow-up thread for the C5 witness. -/
def GithubAgent.c5Thread2 : GithubAgent.ThreadRun :=
  { state := { repo := "r", repo_analysis := none,
               pr_number := 4, comment_node_id := "U", comment_id := "d" },
    editor := Except.ok "m" }

/-- Witness for C5: a raising executor on a `code_change` thread followed by
one more thread. -/
theorem GithubAgent.executor_failure_aborts_git_sequence_witness :
    GithubAgent.c5Thread1.state.repo_analysis = some GithubAgent.c5Analysis ∧
    GithubAgent.c5Analysis.action_type = "code_change" ∧
    GithubAgent.c5Thread1.editor = Except.error "boom" ∧
    GithubAgent.mainLoop [GithubAgent.c5Thread1, GithubAgent.c5Thread2] =
      GithubAgent.RunEvent.errorCaught GithubAgent.c5Thread1
        [GithubAgent.AgentCall.codingAgent GithubAgent.c5Analysis.fix_prompt
          GithubAgent.c5Analysis.reasoning
          GithubAgent.c5Analysis.comment_reply] ::
        GithubAgent.mainLoop [GithubAgent.c5Thread2] :=
  ⟨rfl, rfl, rfl,
   (GithubAgent.executor_failure_aborts_git_sequence GithubAgent.c5Thread1
      [GithubAgent.c5Thread2] GithubAgent.c5Analysis "boom"
      rfl rfl rfl).1⟩

namespace GithubAgent

/-- One HTTP response the transport hands back to `_post_graphql`:
the status code, whether the 200-payload contains a GraphQL `errors` key,
and the `data` payload (abstracted to a string). -/
structure HttpResponse where
  status : Nat
  hasErrors : Bool := false
  payload : String := ""
deriving DecidableEq, Repr

/-- What `_post_graphql` produces: the parsed `data["data"]` payload or a
raised `RuntimeError` message. -/
inductive GraphqlOutcome
  | ok (payload : String)
  | raised (msg : String)
deriving DecidableEq, Repr

/-- The inner loop of `_post_graphql` (`src/github_utils.py` lines 209–221)
over the remaining attempt indices of `range(3)`.  `resp i` is the server's
response to the `i`-th request.  The second component records the
`time.sleep(1.5 * (attempt + 1))` delays (in seconds, as rationals) taken
before each retry. -/
def postGraphqlGo (resp : Nat → HttpResponse) :
    List Nat → GraphqlOutcome × List ℚ
  | [] => (GraphqlOutcome.raised "Unreachable", [])
  | attempt :: restAttempts =>
    let r := resp attempt
    if r.status = 200 then
      if r.hasErrors then (GraphqlOutcome.raised "GraphQL errors", [])
      else (GraphqlOutcome.ok r.payload, [])
    else if (r.status = 502 ∨ r.status = 503 ∨ r.status = 504) ∧ attempt < 2
    then
      let rest := postGraphqlGo resp restAttempts
      (rest.1, (3 / 2 * (attempt + 1 : ℚ)) :: rest.2)
    else
      (GraphqlOutcome.raised ("GraphQL HTTP " ++ toString r.status), [])

/-- `_post_graphql`: `for attempt in range(3)` around one POST per attempt. -/
def post_graphql (resp : Nat → HttpResponse) : GraphqlOutcome × List ℚ :=
  postGraphqlGo resp [0, 1, 2]

end GithubAgent

/-- C6: the GraphQL client retries transient server errors (502/503/504) up
to 2 times with linearly increasing delay (1.5 s then 3 s) and raises
immediately, with no retry and no delay, on every other non-200 status; in
the 503/503/200 scenario it returns the successful payload. -/
theorem GithubAgent.post_graphql_retry (resp : Nat → GithubAgent.HttpResponse)
    (p : String) :
    ((resp 0 = { status := 503 } ∧ resp 1 = { status := 503 } ∧
        resp 2 = { status := 200, hasErrors := false, payload := p }) →
      GithubAgent.post_graphql resp =
        (GithubAgent.GraphqlOutcome.ok p, [3 / 2, 3])) ∧
    ((resp 0).status ≠ 200 → (resp 0).status ≠ 502 → (resp 0).status ≠ 503 →
      (resp 0).status ≠ 504 →
      GithubAgent.post_graphql resp =
        (GithubAgent.GraphqlOutcome.raised
          ("GraphQL HTTP " ++ toString (resp 0).status), [])) ∧
    (((resp 0).status = 503 ∧ (resp 1).status = 503 ∧ (resp 2).status = 503) →
      GithubAgent.post_graphql resp =
        (GithubAgent.GraphqlOutcome.raised "GraphQL HTTP 503",
          [3 / 2, 3])) := by
  open GithubAgent in
  refine ⟨?_, ?_, ?_⟩
  · rintro ⟨h0, h1, h2⟩
    simp [post_graphql, postGraphqlGo, h0, h1, h2]
    norm_num
  · intro h200 h502 h503 h504
    rw [post_graphql, postGraphqlGo]
    simp only [if_neg h200, h502, h503, h504, false_or, or_self,
      false_and, if_neg (fun h : False => h.elim)]
  · rintro ⟨h0, h1, h2⟩
    rw [post_graphql, postGraphqlGo]
    rw [if_neg (by rw [h0]; decide),
      if_pos (⟨Or.inr (Or.inl h0), by norm_num⟩ :
        ((resp 0).status = 502 ∨ (resp 0).status = 503 ∨
          (resp 0).status = 504) ∧ 0 < 2)]
    rw [postGraphqlGo]
    rw [if_neg (by rw [h1]; decide),
      if_pos (⟨Or.inr (Or.inl h1), by norm_num⟩ :
        ((resp 1).status = 502 ∨ (resp 1).status = 503 ∨
          (resp 1).status = 504) ∧ 1 < 2)]
    rw [postGraphqlGo]
    rw [if_neg (by rw [h2]; decide),
      if_neg (by simp : ¬ (((resp 2).status = 502 ∨ (resp 2).status = 503 ∨
        (resp 2).status = 504) ∧ 2 < 2))]
    rw [h2]
    norm_num
    decide

/-- Witness for C6: 503, 503, then 200 with payload "ok". -/
theorem GithubAgent.post_graphql_retry_witness :
    ((fun i => if i = 0 then ({ status := 503 } : GithubAgent.HttpResponse)
        else if i = 1 then { status := 503 }
        else { status := 200, hasErrors := false, payload := "ok" }) 0 =
      ({ status := 503 } : GithubAgent.HttpResponse)) ∧
    GithubAgent.post_graphql
      (fun i => if i = 0 then ({ status := 503 } : GithubAgent.HttpResponse)
        else if i = 1 then { status := 503 }
        else { status := 200, hasErrors := false, payload := "ok" }) =
      (GithubAgent.GraphqlOutcome.ok "ok", [3 / 2, 3]) :=
  ⟨rfl,
   (GithubAgent.post_graphql_retry
      (fun i => if i = 0 then ({ status := 503 } : GithubAgent.HttpResponse)
        else if i = 1 then { status := 503 }
        else { status := 200, hasErrors := false, payload := "ok" })
      "ok").1 ⟨rfl, rfl, rfl⟩⟩

namespace GithubAgent

/-- A `subprocess.CalledProcessError` from a `check=True` call: the command,
its exit code and its captured stderr text. -/
structure CmdError where
  cmd : List String
  returncode : Int
  stderr : String
deriving DecidableEq, Repr

/-- The parsed output of `gh pr view <n> --json headRefName,baseRefName,title`. -/
structure PrDetails where
  headRefName : String
  baseRefName : String
  title : String
deriving DecidableEq, Repr

/-- Environment for `push_changes_and_create_pr`: the outcome of each
CLI command it runs with `check=True`.  An `Except.error` is a non-zero
exit (`CalledProcessError`); for the two JSON-producing commands the inner
`Option` is `none` when the stdout does not parse (`json.JSONDecodeError`). -/
structure GhEnv where
  prView : Except CmdError (Option PrDetails)
  currentBranch : Except CmdError String
  push : String → Except CmdError Unit
  prCreate : String → String → String → String → Except CmdError String
  prViewNumber : String → Except CmdError (Option Nat)

/-- The CLI invocations `push_changes_and_create_pr` makes, in order. -/
inductive GhCall
  | viewBasePr (base_pr_number : Nat)
  | showCurrentBranch
  | pushBranch (branch : String)
  | createPr (base head title body : String)
  | viewPrNumber (url : String)
deriving DecidableEq, Repr

/-- The dictionary `push_changes_and_create_pr` returns.  `jsonError` is the
`json.JSONDecodeError` handler (its message carries only `str(e)`, no
command/exit code). -/
inductive PushPrResult
  | success (new_pr_number : Nat) (new_pr_url new_branch_name : String)
      (base_pr_number : Nat) (base_branch pr_title : String)
  | cliError (error : String) (command : List String) (return_code : Int)
  | jsonError
deriving DecidableEq, Repr

/-- Python falsiness of an optional-string argument (`None` or `""`). -/
def optStrFalsy (s : Option String) : Bool :=
  s.getD "" = ""

/-- The auto-generated PR title
(`f"🤖 Agent fixes for PR #{base_pr_number}: {base_pr_title}"`). -/
def auto_pr_title (base_pr_number : Nat) (base_pr_title : String) : String :=
  "🤖 Agent fixes for PR #" ++ toString base_pr_number ++ ": " ++ base_pr_title

/-- The auto-generated PR body (the f-string template in
`push_changes_and_create_pr`). -/
def auto_pr_body (base_pr_number : Nat) (base_branch : String) : String :=
  "## 🤖 Automated Code Review Response\n\nThis PR contains automated fixes and responses to comments in PR #"
    ++ toString base_pr_number ++
    ".\n\n### Changes Made\n- Applied automated code fixes based on review comments\n- Generated responses to review feedback\n\n### Related PR\n- Base PR: #"
    ++ toString base_pr_number ++ "\n- Target Branch: `" ++ base_branch ++
    "`\n\n### Generated by\nAI Agent for GitHub Code Review\n"

/-- The structured failure dictionary for a `CalledProcessError`:
`{"success": False, "error": f"Git/GitHub CLI error: {e.stderr}",
"command": e.cmd, "return_code": e.returncode}`. -/
def cliFailure (e : CmdError) : PushPrResult :=
  PushPrResult.cliError ("Git/GitHub CLI error: " ++ e.stderr) e.cmd
    e.returncode

/-- The tail of `push_changes_and_create_pr` once the base-PR details and the
branch name are known: push, generate title/body if not provided, create the
PR with `--base` the base PR's head branch, read the new PR number. -/
def pushAndCreateAfterBranch (env : GhEnv) (base_pr_number : Nat)
    (pr_details : PrDetails) (branch : String)
    (pr_title pr_body : Option String) (calls : List GhCall) :
    PushPrResult × List GhCall :=
  let base_branch := pr_details.headRefName
  match env.push branch with
  | Except.error e => (cliFailure e, calls ++ [GhCall.pushBranch branch])
  | Except.ok _ =>
    let title := if optStrFalsy pr_title then
        auto_pr_title base_pr_number pr_details.title
      else pr_title.getD ""
    let body := if optStrFalsy pr_body then
        auto_pr_body base_pr_number base_branch
      else pr_body.getD ""
    match env.prCreate base_branch branch title body with
    | Except.error e =>
      (cliFailure e, calls ++ [GhCall.pushBranch branch,
        GhCall.createPr base_branch branch title body])
    | Except.ok pr_url =>
      match env.prViewNumber pr_url with
      | Except.error e =>
        (cliFailure e, calls ++ [GhCall.pushBranch branch,
          GhCall.createPr base_branch branch title body,
          GhCall.viewPrNumber pr_url])
      | Except.ok none =>
        (PushPrResult.jsonError, calls ++ [GhCall.pushBranch branch,
          GhCall.createPr base_branch branch title body,
          GhCall.viewPrNumber pr_url])
      | Except.ok (some new_pr_number) =>
        (PushPrResult.success new_pr_number pr_url branch base_pr_number
          base_branch title,
         calls ++ [GhCall.pushBranch branch,
          GhCall.createPr base_branch branch title body,
          GhCall.viewPrNumber pr_url])

/-- `push_changes_and_create_pr` from `src/github_utils.py` (lines 538–673):
read the base PR's details (its head branch becomes the new PR's base), use
the given branch name or ask git for the current one, push, create the PR —
returning the structured failure dictionary instead of raising on any
`CalledProcessError` or `JSONDecodeError`. -/
def push_changes_and_create_pr (env : GhEnv) (base_pr_number : Nat)
    (new_branch_name pr_title pr_body : Option String) :
    PushPrResult × List GhCall :=
  match env.prView with
  | Except.error e => (cliFailure e, [GhCall.viewBasePr base_pr_number])
  | Except.ok none =>
    (PushPrResult.jsonError, [GhCall.viewBasePr base_pr_number])
  | Except.ok (some pr_details) =>
    if optStrFalsy new_branch_name then
      match env.currentBranch with
      | Except.error e =>
        (cliFailure e,
          [GhCall.viewBasePr base_pr_number, GhCall.showCurrentBranch])
      | Except.ok branch =>
        pushAndCreateAfterBranch env base_pr_number pr_details branch
          pr_title pr_body
          [GhCall.viewBasePr base_pr_number, GhCall.showCurrentBranch]
    else
      pushAndCreateAfterBranch env base_pr_number pr_details
        (new_branch_name.getD "") pr_title pr_body
        [GhCall.viewBasePr base_pr_number]

/-- `create_new_branch` from `src/github_utils.py`:
`git checkout -b f"pr-{pr_number}-response-{comment_node_id}"`. -/
def create_new_branch_name (pr_number : Nat) (comment_node_id : String) :
    String :=
  "pr-" ++ toString pr_number ++ "-response-" ++ comment_node_id

end GithubAgent

/-- C7: on the successful `code_change` path the fix branch is the
deterministic function `pr-<pr_number>-response-<thread id>` of the PR number
and the thread identifier (the driver passes the thread id as
`comment_node_id`), and the follow-up PR is created with `--base` equal to
the reviewed PR's *head* branch (`headRefName`, not `baseRefName` or any
default branch), with the auto-generated title and body when none are
supplied. -/
theorem GithubAgent.code_change_branch_and_chained_pr
    (env : GithubAgent.GhEnv) (base_pr_number : Nat)
    (details : GithubAgent.PrDetails) (branch url : String) (n : Nat)
    (hview : env.prView = Except.ok (some details))
    (hbranch : branch ≠ "")
    (hpush : env.push branch = Except.ok ())
    (hcreate : env.prCreate details.headRefName branch
      (GithubAgent.auto_pr_title base_pr_number details.title)
      (GithubAgent.auto_pr_body base_pr_number details.headRefName) =
        Except.ok url)
    (hnum : env.prViewNumber url = Except.ok (some n)) :
    (∀ pr tid, GithubAgent.create_new_branch_name pr tid =
      "pr-" ++ toString pr ++ "-response-" ++ tid) ∧
    (∀ (st : GithubAgent.AgentState) (a : GithubAgent.RepoAnalysis)
        (m : String),
      (GithubAgent.make_code_changes st a (Except.ok m)).1 =
        [GithubAgent.AgentCall.codingAgent a.fix_prompt a.reasoning
          a.comment_reply,
         GithubAgent.AgentCall.createBranch st.repo st.pr_number
          st.comment_node_id,
         GithubAgent.AgentCall.commitChanges st.repo m,
         GithubAgent.AgentCall.pushAndCreatePr st.repo st.pr_number
          (GithubAgent.create_new_branch_name st.pr_number
            st.comment_node_id)
          "Agent fixes for PR" "Agent fixes for PR"]) ∧
    GithubAgent.push_changes_and_create_pr env base_pr_number (some branch)
        none none =
      (GithubAgent.PushPrResult.success n url branch base_pr_number
        details.headRefName
        (GithubAgent.auto_pr_title base_pr_number details.title),
       [GithubAgent.GhCall.viewBasePr base_pr_number,
        GithubAgent.GhCall.pushBranch branch,
        GithubAgent.GhCall.createPr details.headRefName branch
          (GithubAgent.auto_pr_title base_pr_number details.title)
          (GithubAgent.auto_pr_body base_pr_number details.headRefName),
        GithubAgent.GhCall.viewPrNumber url]) := by
  open GithubAgent in
  refine ⟨fun pr tid => rfl, fun st a m => rfl, ?_⟩
  have hfalsy : optStrFalsy (some branch) = false := by
    simp [optStrFalsy, hbranch]
  rw [push_changes_and_create_pr, hview]
  simp only [hfalsy, Bool.false_eq_true, if_false, Option.getD_some]
  rw [pushAndCreateAfterBranch, hpush]
  simp only [optStrFalsy, Option.getD_none, decide_True, if_true,
    eq_self_iff_true]
  simp only [hcreate, hnum]
  rfl

/-- Witness for C7 at a concrete all-successful environment. -/
theorem GithubAgent.code_change_branch_and_chained_pr_witness :
    (({ prView := Except.ok (some { headRefName := "feature", baseRefName := "main", title := "T" }),
        currentBranch := Except.ok "cur",
        push := fun _ => Except.ok (),
        prCreate := fun _ _ _ _ => Except.ok "http://pr/9",
        prViewNumber := fun _ => Except.ok (some 9) } :
          GithubAgent.GhEnv).prView =
      Except.ok (some { headRefName := "feature", baseRefName := "main", title := "T" })) ∧
    GithubAgent.push_changes_and_create_pr
        { prView := Except.ok (some { headRefName := "feature", baseRefName := "main", title := "T" }),
          currentBranch := Except.ok "cur",
          push := fun _ => Except.ok (),
          prCreate := fun _ _ _ _ => Except.ok "http://pr/9",
          prViewNumber := fun _ => Except.ok (some 9) }
        4 (some "pr-4-response-TID") none none =
      (GithubAgent.PushPrResult.success 9 "http://pr/9" "pr-4-response-TID" 4
        "feature" (GithubAgent.auto_pr_title 4 "T"),
       [GithubAgent.GhCall.viewBasePr 4,
        GithubAgent.GhCall.pushBranch "pr-4-response-TID",
        GithubAgent.GhCall.createPr "feature" "pr-4-response-TID"
          (GithubAgent.auto_pr_title 4 "T")
          (GithubAgent.auto_pr_body 4 "feature"),
        GithubAgent.GhCall.viewPrNumber "http://pr/9"]) :=
  ⟨rfl,
   (GithubAgent.code_change_branch_and_chained_pr
      { prView := Except.ok (some { headRefName := "feature", baseRefName := "main", title := "T" }),
        currentBranch := Except.ok "cur",
        push := fun _ => Except.ok (),
        prCreate := fun _ _ _ _ => Except.ok "http://pr/9",
        prViewNumber := fun _ => Except.ok (some 9) }
      4 { headRefName := "feature", baseRefName := "main", title := "T" }
      "pr-4-response-TID" "http://pr/9" 9 rfl (by decide) rfl rfl rfl).2.2⟩

/-- C8: every CLI command of `push_changes_and_create_pr` that exits non-zero
makes the function return (not raise) the structured failure whose error
message embeds the command's stderr text alongside the command itself and its
exit code — at whichever stage the failure occurs. -/
theorem GithubAgent.push_changes_cli_failure_is_structured
    (env : GithubAgent.GhEnv) (base_pr_number : Nat)
    (details : GithubAgent.PrDetails) (branch t b url : String)
    (e : GithubAgent.CmdError) :
    (env.prView = Except.error e →
      (GithubAgent.push_changes_and_create_pr env base_pr_number
        none none none).1 =
        GithubAgent.PushPrResult.cliError
          ("Git/GitHub CLI error: " ++ e.stderr) e.cmd e.returncode) ∧
    (env.prView = Except.ok (some details) →
      env.currentBranch = Except.error e →
      (GithubAgent.push_changes_and_create_pr env base_pr_number
        none none none).1 =
        GithubAgent.PushPrResult.cliError
          ("Git/GitHub CLI error: " ++ e.stderr) e.cmd e.returncode) ∧
    (env.prView = Except.ok (some details) → branch ≠ "" →
      env.push branch = Except.error e →
      (GithubAgent.push_changes_and_create_pr env base_pr_number
        (some branch) (some t) (some b)).1 =
        GithubAgent.PushPrResult.cliError
          ("Git/GitHub CLI error: " ++ e.stderr) e.cmd e.returncode) ∧
    (env.prView = Except.ok (some details) → branch ≠ "" → t ≠ "" → b ≠ "" →
      env.push branch = Except.ok () →
      env.prCreate details.headRefName branch t b = Except.error e →
      (GithubAgent.push_changes_and_create_pr env base_pr_number
        (some branch) (some t) (some b)).1 =
        GithubAgent.PushPrResult.cliError
          ("Git/GitHub CLI error: " ++ e.stderr) e.cmd e.returncode) ∧
    (env.prView = Except.ok (some details) → branch ≠ "" → t ≠ "" → b ≠ "" →
      env.push branch = Except.ok () →
      env.prCreate details.headRefName branch t b = Except.ok url →
      env.prViewNumber url = Except.error e →
      (GithubAgent.push_changes_and_create_pr env base_pr_number
        (some branch) (some t) (some b)).1 =
        GithubAgent.PushPrResult.cliError
          ("Git/GitHub CLI error: " ++ e.stderr) e.cmd e.returncode) := by
  open GithubAgent in
  have hf : optStrFalsy none = true := rfl
  refine ⟨?_, ?_, ?_, ?_, ?_⟩
  · intro hview
    rw [push_changes_and_create_pr, hview]
    rfl
  · intro hview hcur
    rw [push_changes_and_create_pr, hview]
    simp only [hf, if_pos rfl, hcur]
    rfl
  · intro hview hbranch hpush
    have hfb : optStrFalsy (some branch) = false := by
      simp [optStrFalsy, hbranch]
    rw [push_changes_and_create_pr, hview]
    simp only [hfb, Bool.false_eq_true, if_false, Option.getD_some]
    rw [pushAndCreateAfterBranch, hpush]
    rfl
  · intro hview hbranch ht hb hpush hcreate
    have hfb : optStrFalsy (some branch) = false := by
      simp [optStrFalsy, hbranch]
    have hft : optStrFalsy (some t) = false := by
      simp [optStrFalsy, ht]
    have hfbo : optStrFalsy (some b) = false := by
      simp [optStrFalsy, hb]
    rw [push_changes_and_create_pr, hview]
    simp only [hfb, Bool.false_eq_true, if_false, Option.getD_some]
    rw [pushAndCreateAfterBranch, hpush]
    simp only [hft, hfbo, Bool.false_eq_true, if_false, Option.getD_some]
    rw [hcreate]
    rfl
  · intro hview hbranch ht hb hpush hcreate hnum
    have hfb : optStrFalsy (some branch) = false := by
      simp [optStrFalsy, hbranch]
    have hft : optStrFalsy (some t) = false := by
      simp [optStrFalsy, ht]
    have hfbo : optStrFalsy (some b) = false := by
      simp [optStrFalsy, hb]
    rw [push_changes_and_create_pr, hview]
    simp only [hfb, Bool.false_eq_true, if_false, Option.getD_some]
    rw [pushAndCreateAfterBranch, hpush]
    simp only [hft, hfbo, Bool.false_eq_true, if_false, Option.getD_some]
    simp only [hcreate, hnum]
    rfl

/-- Witness for C8: a failing `gh pr view` on the base PR. -/
theorem GithubAgent.push_changes_cli_failure_is_structured_witness :
    (({ prView := Except.error
          { cmd := ["gh", "pr", "view", "4"], returncode := 1,
            stderr := "no such PR" },
        currentBranch := Except.ok "cur",
        push := fun _ => Except.ok (),
        prCreate := fun _ _ _ _ => Except.ok "u",
        prViewNumber := fun _ => Except.ok (some 1) } :
          GithubAgent.GhEnv).prView =
      Except.error { cmd := ["gh", "pr", "view", "4"], returncode := 1,
                     stderr := "no such PR" }) ∧
    (GithubAgent.push_changes_and_create_pr
        { prView := Except.error
            { cmd := ["gh", "pr", "view", "4"], returncode := 1,
              stderr := "no such PR" },
          currentBranch := Except.ok "cur",
          push := fun _ => Except.ok (),
          prCreate := fun _ _ _ _ => Except.ok "u",
          prViewNumber := fun _ => Except.ok (some 1) }
        4 none none none).1 =
      GithubAgent.PushPrResult.cliError
        ("Git/GitHub CLI error: " ++ "no such PR")
        ["gh", "pr", "view", "4"] 1 :=
  ⟨rfl,
   (GithubAgent.push_changes_cli_failure_is_structured
      { prView := Except.error
          { cmd := ["gh", "pr", "view", "4"], returncode := 1,
            stderr := "no such PR" },
        currentBranch := Except.ok "cur",
        push := fun _ => Except.ok (),
        prCreate := fun _ _ _ _ => Except.ok "u",
        prViewNumber := fun _ => Except.ok (some 1) }
      4 { headRefName := "h", baseRefName := "b", title := "t" }
      "x" "x" "x" "u"
      { cmd := ["gh", "pr", "view", "4"], returncode := 1,
        stderr := "no such PR" }).1 rfl⟩

namespace GithubAgent

/-- The PR coordinates `Q_COMMENT_TO_PR` resolves a comment id to. -/
structure CommentPrInfo where
  owner : String
  name : String
  number : Nat
deriving DecidableEq, Repr

/-- One page of the `Q_REVIEW_THREADS` pagination: thread ids with their
comment ids, plus `pageInfo.hasNextPage`. -/
structure ThreadPage where
  threads : List (String × List String)
  hasNextPage : Bool
deriving DecidableEq, Repr

/-- The comment the reply mutation returns.  `author` is the login; `none`
models a null author, whose `["login"]` subscription raises (and is caught
by the function's `except` handler). -/
structure ReplyCommentData where
  id : String
  url : String
  body : String
  createdAt : String
  author : Option String
deriving DecidableEq, Repr

/-- Environment for `add_comment_to_thread`: every GraphQL exchange it can
perform.  `Except.error` carries the message of a raised transport or
GraphQL-shape exception (`str(e)`).  `commentToPr = ok none` models a null
node or a non-`PullRequestReviewComment` typename. -/
structure ReplyEnv where
  commentToPr : Except String (Option CommentPrInfo)
  reviewThreadPages : List ThreadPage
  mutation : String → String → Except String ReplyCommentData

/-- The per-page walk of step 2 of `add_comment_to_thread`: scan each page's
threads for one containing the comment id; stop at the first hit; page
forward while `hasNextPage`, else raise "Could not locate ...".  Running out
of supplied pages while `hasNextPage` is true models a transport failure on
the next request. -/
def findThreadInPages (comment_id : String) :
    List ThreadPage → Except String String
  | [] => Except.error "transport error"
  | page :: rest =>
    match page.threads.find? fun t => t.2.contains comment_id with
    | some t => Except.ok t.1
    | none =>
      if page.hasNextPage then findThreadInPages comment_id rest
      else Except.error
        "Could not locate the parent review thread for the given comment_id"

/-- The thread-id resolution of `add_comment_to_thread`: only when a
comment id is given and no thread id, resolve the comment to its PR and walk
that PR's review threads; otherwise the given thread id is used as-is. -/
def resolveThreadId (env : ReplyEnv) (thread_id comment_id : Option String) :
    Except String String :=
  if !(optStrFalsy comment_id) && optStrFalsy thread_id then
    match env.commentToPr with
    | Except.error e => Except.error e
    | Except.ok none =>
      Except.error "comment_id is not a PullRequestReviewComment node id"
    | Except.ok (some _) =>
      findThreadInPages (comment_id.getD "") env.reviewThreadPages
  else Except.ok (thread_id.getD "")

/-- The dictionary `add_comment_to_thread` returns. -/
inductive ReplyResult
  | success (comment_id comment_url comment_body created_at author
      thread_id : String)
  | failure (error : String) (thread_id comment_id : Option String)
deriving DecidableEq, Repr

/-- `add_comment_to_thread` from `src/github_utils.py` (lines 383–477).  The
whole body sits in `try/except Exception`, so the function always returns a
dictionary — modelled as a total function.  The second component counts the
reply mutations performed.  The failure dictionary echoes the `thread_id`
variable's current value: still the argument before resolution, the resolved
id after.  (The author-null `TypeError` text is abbreviated.) -/
def add_comment_to_thread (env : ReplyEnv)
    (thread_id comment_id comment_body : Option String) :
    ReplyResult × Nat :=
  if optStrFalsy comment_body then
    (ReplyResult.failure
      "Error adding comment to thread: comment_body is required"
      thread_id comment_id, 0)
  else if optStrFalsy thread_id && optStrFalsy comment_id then
    (ReplyResult.failure
      "Error adding comment to thread: Provide either thread_id or comment_id"
      thread_id comment_id, 0)
  else
    match resolveThreadId env thread_id comment_id with
    | Except.error e =>
      (ReplyResult.failure ("Error adding comment to thread: " ++ e)
        thread_id comment_id, 0)
    | Except.ok tid =>
      match env.mutation tid (comment_body.getD "") with
      | Except.error e =>
        (ReplyResult.failure ("Error adding comment to thread: " ++ e)
          (some tid) comment_id, 1)
      | Except.ok data =>
        match data.author with
        | none =>
          (ReplyResult.failure
            "Error adding comment to thread: author is null"
            (some tid) comment_id, 1)
        | some login =>
          (ReplyResult.success data.id data.url data.body data.createdAt
            login tid, 1)

end GithubAgent

/-- C9: `add_comment_to_thread` never raises (it is a total function of its
environment): an empty/missing `comment_body`, or neither `thread_id` nor
`comment_id`, yields a `success=False` dictionary with an error message and
performs no reply mutation; and a success dictionary is returned only when
the reply mutation actually completed (with a non-null author), its fields
copied from the mutation's response. -/
theorem GithubAgent.add_comment_to_thread_guards
    (env : GithubAgent.ReplyEnv) (tid cid body : Option String) :
    (GithubAgent.optStrFalsy body = true →
      GithubAgent.add_comment_to_thread env tid cid body =
        (GithubAgent.ReplyResult.failure
          "Error adding comment to thread: comment_body is required"
          tid cid, 0)) ∧
    (GithubAgent.optStrFalsy body = false →
      GithubAgent.optStrFalsy tid = true →
      GithubAgent.optStrFalsy cid = true →
      GithubAgent.add_comment_to_thread env tid cid body =
        (GithubAgent.ReplyResult.failure
          "Error adding comment to thread: Provide either thread_id or comment_id"
          tid cid, 0)) ∧
    (∀ a b c d e f,
      (GithubAgent.add_comment_to_thread env tid cid body).1 =
        GithubAgent.ReplyResult.success a b c d e f →
      (GithubAgent.add_comment_to_thread env tid cid body).2 = 1 ∧
      ∃ data, env.mutation f (body.getD "") = Except.ok data ∧
        data.author = some e ∧ a = data.id ∧ b = data.url ∧
        c = data.body ∧ d = data.createdAt) := by
  open GithubAgent in
  refine ⟨?_, ?_, ?_⟩
  · intro hb
    rw [add_comment_to_thread, if_pos hb]
  · intro hb ht hc
    rw [add_comment_to_thread, if_neg (by rw [hb]; decide),
      if_pos (by rw [ht, hc]; rfl)]
  · intro a b c d e f h
    by_cases hb : optStrFalsy body = true
    · rw [add_comment_to_thread, if_pos hb] at h
      simp at h
    · rw [add_comment_to_thread,
        if_neg (by simp [Bool.eq_false_iff.mpr hb])] at h ⊢
      by_cases hg : (optStrFalsy tid && optStrFalsy cid) = true
      · rw [if_pos hg] at h
        simp at h
      · rw [if_neg (by simp [hg])] at h ⊢
        cases hres : resolveThreadId env tid cid with
        | error msg =>
          simp only [hres] at h
          simp at h
        | ok rtid =>
          simp only [hres] at h ⊢
          cases hmut : env.mutation rtid (body.getD "") with
          | error msg =>
            simp only [hmut] at h
            simp at h
          | ok data =>
            simp only [hmut] at h ⊢
            cases hauth : data.author with
            | none =>
              simp only [hauth] at h
              simp at h
            | some login =>
              simp only [hauth, ReplyResult.success.injEq] at h
              obtain ⟨ha, hb', hc', hd, he, hf⟩ := h
              subst ha hb' hc' hd he hf
              exact ⟨rfl, data, hmut, hauth, rfl, rfl, rfl, rfl⟩

/-- Witness for C9: missing body at a concrete environment. -/
theorem GithubAgent.add_comment_to_thread_guards_witness :
    GithubAgent.optStrFalsy none = true ∧
    GithubAgent.add_comment_to_thread
        { commentToPr := Except.ok none, reviewThreadPages := [],
          mutation := fun _ _ => Except.error "no network" }
        (some "T") (some "c") none =
      (GithubAgent.ReplyResult.failure
        "Error adding comment to thread: comment_body is required"
        (some "T") (some "c"), 0) :=
  ⟨rfl,
   (GithubAgent.add_comment_to_thread_guards
      { commentToPr := Except.ok none, reviewThreadPages := [],
        mutation := fun _ _ => Except.error "no network" }
      (some "T") (some "c") none).1 rfl⟩

namespace GithubAgent

/-- The clamped end line of `read_file`: `len(lines) - 1` when
`end_line is None`, else `min(end_line, len(lines) - 1)`. -/
def clampedEndLine (lines : List String) (end_line : Option Int) : Int :=
  match end_line with
  | none => (lines.length : Int) - 1
  | some e0 => min e0 ((lines.length : Int) - 1)

/-- `read_file` from `src/tools.py` (lines 11–53) and identically
`src/agent.py` (lines 107–155).  The filesystem is passed in: `file` is
`none` when `os.path.exists` is false, otherwise the `readlines()` result.
`start_line`/`end_line` are arbitrary integers (`end_line = none` is the
`None` default).  The body is wrapped in `try/except` returning error
strings, so the model is a total function. -/
def read_file (file : Option (List String)) (file_path : String)
    (start_line : Int) (end_line : Option Int) : String :=
  match file with
  | none => "File not found: " ++ file_path
  | some lines =>
    if lines.length = 0 then ""
    else
      let e : Int := clampedEndLine lines end_line
      let s : Int := max 0 start_line
      if s > e then ""
      else
        String.join
          (((lines.drop s.toNat).take (e.toNat + 1 - s.toNat)).enum.map
            fun p => toString (s.toNat + p.1) ++ "->" ++ p.2)

/-- Each selected slice entry, enumerated from the clamped start, is the
line at its absolute 0-indexed position. -/
theorem map_enum_take_drop (lines : List String) (sN n : Nat)
    (h : sN + n ≤ lines.length) :
    (((lines.drop sN).take n).enum).map
        (fun p => toString (sN + p.1) ++ "->" ++ p.2) =
      (List.range' sN n).map
        (fun idx => toString idx ++ "->" ++ lines.getD idx "") := by
  apply List.ext_getElem
  · simp only [List.length_map, List.enum_length, List.length_take,
      List.length_drop, List.length_range']
    omega
  · intro i h1 h2
    have hlen : i < n := by
      simpa only [List.length_map, List.enum_length, List.length_take,
        List.length_drop, List.length_range'] using h2
    have hbound : sN + i < lines.length := by omega
    simp only [List.getElem_map, List.getElem_enum, List.getElem_take,
      List.getElem_drop, List.getElem_range', one_mul]
    rw [List.getD_eq_getElem lines "" hbound]

end GithubAgent

/-- C10: `read_file` is total over its line-range arguments: a missing file
yields an error string, an empty file yields `""`, `end_line` is clamped to
the last 0-indexed line and `start_line` to at least 0, a clamped range with
start above end yields `""`, and otherwise the output is exactly the join of
the selected lines each prefixed by its absolute 0-indexed line number. -/
theorem GithubAgent.read_file_line_ranges (lines : List String)
    (pth : String) (s0 : Int) (e0 : Option Int) :
    (GithubAgent.read_file none pth s0 e0 = "File not found: " ++ pth) ∧
    (GithubAgent.read_file (some []) pth s0 e0 = "") ∧
    (GithubAgent.clampedEndLine lines e0 ≤ (lines.length : Int) - 1 ∧
      0 ≤ max 0 s0) ∧
    (lines ≠ [] →
      (max 0 s0 > GithubAgent.clampedEndLine lines e0 →
        GithubAgent.read_file (some lines) pth s0 e0 = "") ∧
      (max 0 s0 ≤ GithubAgent.clampedEndLine lines e0 →
        GithubAgent.read_file (some lines) pth s0 e0 =
          String.join ((List.range' (max 0 s0).toNat
            ((GithubAgent.clampedEndLine lines e0).toNat + 1 -
              (max 0 s0).toNat)).map
            fun idx => toString idx ++ "->" ++ lines.getD idx ""))) := by
  open GithubAgent in
  have hclamp : clampedEndLine lines e0 ≤ (lines.length : Int) - 1 := by
    cases e0 with
    | none => exact le_refl _
    | some x => exact min_le_right _ _
  refine ⟨rfl, rfl, ⟨hclamp, le_max_left _ _⟩, ?_⟩
  intro hne
  have hlen : lines.length ≠ 0 := fun hz => hne (List.length_eq_zero.mp hz)
  constructor
  · intro hgt
    simp only [read_file, if_neg hlen]
    rw [if_pos]
    exact hgt
  · intro hle
    simp only [read_file, if_neg hlen]
    rw [if_neg (not_lt.mpr hle)]
    have h1 : (1 : Int) ≤ lines.length := by
      omega
    have hs0 : (0 : Int) ≤ max 0 s0 := le_max_left _ _
    have he0 : (0 : Int) ≤ clampedEndLine lines e0 :=
      le_trans hs0 hle
    apply congrArg String.join
    have harg : (max 0 s0).toNat +
        ((clampedEndLine lines e0).toNat + 1 - (max 0 s0).toNat) ≤
          lines.length := by
      omega
    exact map_enum_take_drop lines _ _ harg

/-- Witness for C10 at a concrete two-line file with an out-of-range
request. -/
theorem GithubAgent.read_file_line_ranges_witness :
    (["a\n", "b\n"] : List String) ≠ [] ∧
    max 0 (-5 : Int) ≤ GithubAgent.clampedEndLine ["a\n", "b\n"] (some 99) ∧
    GithubAgent.read_file (some ["a\n", "b\n"]) "f.txt" (-5) (some 99) =
      String.join ((List.range' (max 0 (-5 : Int)).toNat
        ((GithubAgent.clampedEndLine ["a\n", "b\n"] (some 99)).toNat + 1 -
          (max 0 (-5 : Int)).toNat)).map
        fun idx => toString idx ++ "->" ++ ["a\n", "b\n"].getD idx "") :=
  ⟨by decide, by decide,
   ((GithubAgent.read_file_line_ranges ["a\n", "b\n"] "f.txt" (-5)
      (some 99)).2.2.2 (by decide)).2 (by decide)⟩

/-- Witness for C1 at a concrete one-element group. -/
theorem GithubAgent.build_review_comment_dict_root_selection_witness :
    ([({ id := "a" } : GithubAgent.RawComment)] ≠ []) ∧
    ∃ root rest,
      GithubAgent.buildThread 1 "T" [({ id := "a" } : GithubAgent.RawComment)] =
        some (root.id, GithubAgent.shapeComment root 1 "T" :: rest) ∧
      (((GithubAgent.sortComments [({ id := "a" } : GithubAgent.RawComment)]).find?
          (fun c => GithubAgent.isRootComment c) = some root) ∨
       ((GithubAgent.sortComments [({ id := "a" } : GithubAgent.RawComment)]).find?
          (fun c => GithubAgent.isRootComment c) = none ∧
        GithubAgent.firstEarliest [({ id := "a" } : GithubAgent.RawComment)] = some root ∧
        ∃ pre post, [({ id := "a" } : GithubAgent.RawComment)] = pre ++ root :: post ∧
          (∀ d ∈ pre, GithubAgent.strLE (GithubAgent.sortKey d)
            (GithubAgent.sortKey root) = false) ∧
          (∀ d ∈ [({ id := "a" } : GithubAgent.RawComment)],
            GithubAgent.strLE (GithubAgent.sortKey root)
              (GithubAgent.sortKey d) = true))) :=
  ⟨by decide,
   GithubAgent.build_review_comment_dict_root_selection 1 "T" _ (by decide)⟩
